import Mathlib

/-!
Shallow embedding of the activity-to-state resolution engine of
`avatar_overlay.py`: the `State` enumeration, the timestamp ledger
(`StateTimestamps`), the duration configuration (`StateConfig`), the pure
resolver `resolve`, the ledger mutators, the log classifier (`analyze`),
the log tailer cursor logic (`check`), and the filesystem event filter
(`shouldIgnore` / `onAnyEvent`).  Times are modelled as rationals; the
implicit `now = time.time()` inside the Python methods is made an explicit
argument, as the spec itself writes `resolve(now)`.
-/

namespace AvatarOverlay

/-- Avatar states in priority order (higher value = higher priority),
mirroring `class State(Enum)` in `avatar_overlay.py`. -/
inductive State where
  | IDLE
  | THINKING
  | TYPING
  | RUNNING
  | SUCCESS
  | ERROR
deriving DecidableEq, Repr

/-- The numeric value of each enum member (`IDLE = 0` … `ERROR = 5`). -/
def State.value : State → ℕ
  | .IDLE => 0
  | .THINKING => 1
  | .TYPING => 2
  | .RUNNING => 3
  | .SUCCESS => 4
  | .ERROR => 5

/-- `StateTimestamps` dataclass: last occurrence time of each trigger,
every field defaulting to `0.0`. -/
structure StateTimestamps where
  last_fs_activity : ℚ := 0
  last_log_activity : ℚ := 0
  last_running : ℚ := 0
  last_success : ℚ := 0
  last_error : ℚ := 0
deriving DecidableEq, Repr

/-- `StateConfig` dataclass: the timing thresholds with their source
defaults (`1.2 = 6/5`). -/
structure StateConfig where
  error_duration : ℚ := 6
  success_duration : ℚ := 4
  running_duration : ℚ := 3
  typing_threshold : ℚ := 6/5
  thinking_threshold : ℚ := 8
deriving DecidableEq, Repr

/-- A fresh `StateTimestamps()` ledger, all fields `0.0`. -/
def initTimestamps : StateTimestamps := {}

/-- A default `StateConfig()`. -/
def defaultConfig : StateConfig := {}

/-- `StateResolver.resolve`: the priority-ordered, first-match-wins
if-chain of the source, with `now` explicit. -/
def resolve (cfg : StateConfig) (ts : StateTimestamps) (now : ℚ) : State :=
  if now - ts.last_error < cfg.error_duration then .ERROR
  else if now - ts.last_success < cfg.success_duration then .SUCCESS
  else if now - ts.last_running < cfg.running_duration then .RUNNING
  else if now - ts.last_fs_activity < cfg.typing_threshold then .TYPING
  else if now - max ts.last_fs_activity ts.last_log_activity < cfg.thinking_threshold
    then .THINKING
  else .IDLE

/-- `StateResolver.on_fs_activity` at time `now`. -/
def on_fs_activity (now : ℚ) (ts : StateTimestamps) : StateTimestamps :=
  { ts with last_fs_activity := now }

/-- `StateResolver.on_log_activity` at time `now`. -/
def on_log_activity (now : ℚ) (ts : StateTimestamps) : StateTimestamps :=
  { ts with last_log_activity := now }

/-- `StateResolver.on_running`: stamps `last_running`, then calls
`on_log_activity`. -/
def on_running (now : ℚ) (ts : StateTimestamps) : StateTimestamps :=
  on_log_activity now { ts with last_running := now }

/-- `StateResolver.on_success`: stamps `last_success`, then calls
`on_log_activity`. -/
def on_success (now : ℚ) (ts : StateTimestamps) : StateTimestamps :=
  on_log_activity now { ts with last_success := now }

/-- `StateResolver.on_error`: stamps `last_error`, then calls
`on_log_activity`. -/
def on_error (now : ℚ) (ts : StateTimestamps) : StateTimestamps :=
  on_log_activity now { ts with last_error := now }

/-- The decay condition of each non-IDLE state, exactly as tested by
`resolve` (IDLE is the fallback and has no condition of its own). -/
def condHolds (cfg : StateConfig) (ts : StateTimestamps) (now : ℚ) : State → Prop
  | .ERROR => now - ts.last_error < cfg.error_duration
  | .SUCCESS => now - ts.last_success < cfg.success_duration
  | .RUNNING => now - ts.last_running < cfg.running_duration
  | .TYPING => now - ts.last_fs_activity < cfg.typing_threshold
  | .THINKING => now - max ts.last_fs_activity ts.last_log_activity < cfg.thinking_threshold
  | .IDLE => False

instance (cfg : StateConfig) (ts : StateTimestamps) (now : ℚ) (s : State) :
    Decidable (condHolds cfg ts now s) := by
  cases s <;> simp only [condHolds] <;> infer_instance

/-- The largest of the five configured durations. -/
def maxDuration (cfg : StateConfig) : ℚ :=
  max cfg.error_duration (max cfg.success_duration (max cfg.running_duration
    (max cfg.typing_threshold cfg.thinking_threshold)))

/-- The four decay-window triggers named by the spec (the generic
`on_log_activity` has no decay window of its own). -/
inductive Trigger where
  | fs
  | running
  | success
  | error
deriving DecidableEq, Repr

/-- The mutator a trigger invokes. -/
def Trigger.apply : Trigger → ℚ → StateTimestamps → StateTimestamps
  | .fs => on_fs_activity
  | .running => on_running
  | .success => on_success
  | .error => on_error

/-- The state associated with a trigger. -/
def Trigger.state : Trigger → State
  | .fs => .TYPING
  | .running => .RUNNING
  | .success => .SUCCESS
  | .error => .ERROR

/-- The decay duration associated with a trigger. -/
def Trigger.duration (cfg : StateConfig) : Trigger → ℚ
  | .fs => cfg.typing_threshold
  | .running => cfg.running_duration
  | .success => cfg.success_duration
  | .error => cfg.error_duration

/-!
Log classifier.  Each `LogPatterns` regex in the source is an alternation
of case-insensitive literals, so a `re.search` hit is exactly "some
alternative occurs as a substring of the lower-cased chunk".  Chunks are
modelled as `List Char`.
-/

/-- The alternatives of `LogPatterns.RUNNING`. -/
def RUNNING_PATTERNS : List (List Char) :=
  ["running", "executing", "pytest", "npm test", "pnpm test", "yarn test",
   "build", "compile", "install"].map String.toList

/-- The alternatives of `LogPatterns.ERROR`. -/
def ERROR_PATTERNS : List (List Char) :=
  ["error", "failed", "exception", "traceback", "fatal"].map String.toList

/-- The alternatives of `LogPatterns.SUCCESS`. -/
def SUCCESS_PATTERNS : List (List Char) :=
  ["success", "passed", "done", "completed", "finished"].map String.toList

/-- `pattern.search(content)` for an alternation of lower-case literals
with `re.IGNORECASE`: some alternative is an infix of the lower-cased
content. -/
def matchesAny (pats : List (List Char)) (content : List Char) : Bool :=
  pats.any fun p => decide (List.IsInfix p (content.map Char.toLower))

/-- `LogTailer._analyze`: ordered, exclusive classification of a chunk,
updating the ledger at time `now`. -/
def analyze (now : ℚ) (content : List Char) (ts : StateTimestamps) : StateTimestamps :=
  if matchesAny ERROR_PATTERNS content then on_error now ts
  else if matchesAny SUCCESS_PATTERNS content then on_success now ts
  else if matchesAny RUNNING_PATTERNS content then on_running now ts
  else on_log_activity now ts

/-!
Log tailer.  The monitored file is modelled as `Option (List Char)`
(`none` = the file does not exist); its size is its length.  `readFails`
injects an I/O failure raised inside the `open`/`read` block, which the
source swallows with `except Exception: pass`; note the cursor reset
performed on truncation happens before that block and is not rolled back.
-/

/-- The mutable state of a `LogTailer`: the byte cursor `position` and the
ledger it updates through the resolver. -/
structure TailerState where
  position : ℕ
  ts : StateTimestamps
deriving DecidableEq, Repr

/-- `LogTailer.check`, one poll at time `now`. -/
def check (now : ℚ) (file : Option (List Char)) (readFails : Bool)
    (st : TailerState) : TailerState :=
  match file with
  | none => st
  | some content =>
      let size := content.length
      let pos := if size < st.position then 0 else st.position
      if pos < size then
        if readFails then { st with position := pos }
        else { position := size, ts := analyze now (content.drop pos) st.ts }
      else { st with position := pos }

/-!
Filesystem event filter.  An event carries its path, modelled already
split into components (`Path(path).parts`), and the `is_directory` flag.
The exclusion set is modelled as a list of exact component names.
-/

/-- `ProjectWatcher.DEFAULT_EXCLUDES`. -/
def DEFAULT_EXCLUDES : List String :=
  [".git", ".svn", ".hg",
   "node_modules", "__pycache__", ".venv", "venv",
   ".pytest_cache", ".mypy_cache",
   "dist", "build", ".next", ".nuxt"]

/-- `excludes or self.DEFAULT_EXCLUDES` in `ProjectWatcher.__init__`:
`None` and the empty set are falsy, anything else is used as given. -/
def effectiveExcludes (excludes : Option (List String)) : List String :=
  match excludes with
  | none => DEFAULT_EXCLUDES
  | some l => if l.isEmpty then DEFAULT_EXCLUDES else l

/-- `ProjectWatcher._should_ignore`: some path component is in the
exclusion set. -/
def shouldIgnore (excludes : List String) (parts : List String) : Bool :=
  parts.any fun p => decide (p ∈ excludes)

/-- A raw filesystem event: path components and directory flag. -/
structure FSEvent where
  src_parts : List String
  is_directory : Bool
deriving DecidableEq, Repr

/-- `ProjectWatcher.on_any_event`: `true` iff the coalesced activity
signal is emitted for the event. -/
def onAnyEvent (excludes : List String) (e : FSEvent) : Bool :=
  if e.is_directory then false
  else if shouldIgnore excludes e.src_parts then false
  else true

/-!
Engine construction.  `StateResolver.__init__` stores `config or
StateConfig()` (a dataclass instance is always truthy, so `or` only
replaces `None`) and a fresh ledger; nothing validates the durations.
-/

/-- A `StateResolver`: its configuration and its ledger. -/
structure StateResolver where
  config : StateConfig
  timestamps : StateTimestamps
deriving DecidableEq, Repr

/-- `StateResolver.__init__`. -/
def mkStateResolver (config : Option StateConfig) : StateResolver :=
  { config := config.getD {}, timestamps := {} }

/-- `on_fs_activity` lifted to the resolver. -/
def StateResolver.fsActivity (now : ℚ) (r : StateResolver) : StateResolver :=
  { r with timestamps := on_fs_activity now r.timestamps }

/-- `on_log_activity` lifted to the resolver. -/
def StateResolver.logActivity (now : ℚ) (r : StateResolver) : StateResolver :=
  { r with timestamps := on_log_activity now r.timestamps }

/-- `on_running` lifted to the resolver. -/
def StateResolver.runningEvent (now : ℚ) (r : StateResolver) : StateResolver :=
  { r with timestamps := on_running now r.timestamps }

/-- `on_success` lifted to the resolver. -/
def StateResolver.successEvent (now : ℚ) (r : StateResolver) : StateResolver :=
  { r with timestamps := on_success now r.timestamps }

/-- `on_error` lifted to the resolver. -/
def StateResolver.errorEvent (now : ℚ) (r : StateResolver) : StateResolver :=
  { r with timestamps := on_error now r.timestamps }

/-- A `StateConfig` with a non-positive `error_duration`, as a caller could
pass to `StateResolver.__init__`. -/
def badConfig : StateConfig := { defaultConfig with error_duration := -1 }

/-!
Theorems.
-/

lemma resolve_cond (cfg : StateConfig) (ts : StateTimestamps) (now : ℚ) :
    resolve cfg ts now = State.IDLE ∨ condHolds cfg ts now (resolve cfg ts now) := by
  unfold resolve
  split_ifs with h1 h2 h3 h4 h5
  · exact Or.inr h1
  · exact Or.inr h2
  · exact Or.inr h3
  · exact Or.inr h4
  · exact Or.inr h5
  · exact Or.inl rfl

lemma cond_le_resolve (cfg : StateConfig) (ts : StateTimestamps) (now : ℚ)
    (s : State) (hs : condHolds cfg ts now s) :
    s.value ≤ (resolve cfg ts now).value := by
  unfold resolve
  split_ifs with h1 h2 h3 h4 h5 <;> cases s <;>
    simp_all [condHolds, State.value] <;> linarith

/-- C1: for every configuration, ledger snapshot and time `now`, `resolve`
returns a state whose decay condition holds (or IDLE when none does), and
never a lower-priority state while a higher-priority state's condition is
true: every state whose condition holds has priority value at most that of
the returned state. -/
theorem resolve_priority (cfg : StateConfig) (ts : StateTimestamps) (now : ℚ) :
    (resolve cfg ts now = State.IDLE ∨ condHolds cfg ts now (resolve cfg ts now)) ∧
    ∀ s : State, condHolds cfg ts now s → s.value ≤ (resolve cfg ts now).value :=
  ⟨resolve_cond cfg ts now, fun s hs => cond_le_resolve cfg ts now s hs⟩

/-- Witness for C1 at a concrete input: the SUCCESS condition holds in the
ledger `last_success = 10` at `now = 11`, so the resolved state has
priority at least SUCCESS. -/
theorem resolve_priority_witness :
    State.value State.SUCCESS ≤
      State.value (resolve defaultConfig { last_success := 10 } 11) :=
  (resolve_priority defaultConfig { last_success := 10 } 11).2 State.SUCCESS
    (by norm_num [condHolds, defaultConfig])

/-- C2, counterexample: with the default configuration and a fresh ledger,
the SUCCESS trigger at `T = 0` does not make `resolve` yield SUCCESS at
`now = 1`, although `1 ∈ [0, 0 + success_duration)`: the zero-initialized
`last_error` still satisfies the higher-priority ERROR condition. -/
theorem trigger_decay_cex :
    (0 : ℚ) ≤ 1 ∧ (1 : ℚ) < 0 + Trigger.duration defaultConfig .success ∧
    resolve defaultConfig (Trigger.apply .success 0 initTimestamps) 1 = State.ERROR ∧
    State.ERROR ≠ Trigger.state .success := by
  refine ⟨by norm_num, by norm_num [Trigger.duration, defaultConfig], ?_, by
    simp [Trigger.state]⟩
  norm_num [Trigger.apply, resolve, on_success, on_log_activity, initTimestamps,
    defaultConfig]

/-- C2 as amended: for a trigger at time `T` on a fresh ledger, with decay
duration `D`, `resolve(now)` yields the associated state for all
`now ∈ [T, T + D)` provided `T` is at least the largest configured
duration (so that the zero-initialized timestamps of the untriggered,
higher-priority states have already decayed — true of every realistic
wall-clock time); and for any `T`, `resolve(now)` never yields that state
for `now ≥ T + D`. -/
theorem trigger_decay (cfg : StateConfig) (tr : Trigger) (T now : ℚ) :
    (maxDuration cfg ≤ T → T ≤ now → now < T + tr.duration cfg →
      resolve cfg (tr.apply T initTimestamps) now = tr.state) ∧
    (T + tr.duration cfg ≤ now →
      resolve cfg (tr.apply T initTimestamps) now ≠ tr.state) := by
  constructor
  · intro hT h1 h2
    simp only [maxDuration, max_le_iff] at hT
    obtain ⟨he, hs, hr, hty, hth⟩ := hT
    cases tr <;>
      simp only [Trigger.apply, Trigger.duration, Trigger.state, on_fs_activity,
        on_running, on_success, on_error, on_log_activity, initTimestamps,
        resolve] at h2 ⊢ <;>
      split_ifs <;> first | rfl | (exfalso; (try simp_all) <;> linarith)
  · intro h
    cases tr <;>
      simp only [Trigger.apply, Trigger.duration, Trigger.state, on_fs_activity,
        on_running, on_success, on_error, on_log_activity, initTimestamps,
        resolve] at h ⊢ <;>
      split_ifs <;> first | (exfalso; (try simp_all) <;> linarith) | simp

/-- Witness for C2 (amended) at a concrete input: the SUCCESS trigger at
`T = 10` with the default configuration makes `resolve` yield SUCCESS at
`now = 12 ∈ [10, 14)`, and not SUCCESS at `now = 14`. -/
theorem trigger_decay_witness :
    resolve defaultConfig (Trigger.apply .success 10 initTimestamps) 12 =
      Trigger.state .success ∧
    resolve defaultConfig (Trigger.apply .success 10 initTimestamps) 14 ≠
      Trigger.state .success :=
  ⟨(trigger_decay defaultConfig .success 10 12).1
      (by norm_num [maxDuration, defaultConfig, max_le_iff]) (by norm_num)
      (by norm_num [Trigger.duration, defaultConfig]),
    (trigger_decay defaultConfig .success 10 14).2
      (by norm_num [Trigger.duration, defaultConfig])⟩

/-- C9, counterexample: the ledger is initialized to `0.0`, not to an
unreachable past instant: on a freshly constructed resolver, `resolve` at
`now = 1` returns ERROR (the ERROR decay condition `1 - 0 < 6` holds), not
IDLE, refuting "resolve returns IDLE for every now". -/
theorem init_idle_cex :
    resolve defaultConfig initTimestamps 1 = State.ERROR ∧
    State.ERROR ≠ State.IDLE := by
  refine ⟨?_, by simp⟩
  norm_num [resolve, initTimestamps, defaultConfig]

/-- C9 as amended: the five timestamps are initialized to `0.0`; on a
freshly constructed resolver no decay condition holds at any
`now ≥ maxDuration` (the largest configured duration — true of every
realistic wall-clock time), so `resolve` returns IDLE for every such
`now`. -/
theorem init_idle (cfg : StateConfig) (now : ℚ) (h : maxDuration cfg ≤ now) :
    resolve cfg initTimestamps now = State.IDLE := by
  simp only [maxDuration, max_le_iff] at h
  obtain ⟨he, hs, hr, hty, hth⟩ := h
  simp only [resolve, initTimestamps, max_self]
  split_ifs <;> first | rfl | (exfalso; (try simp_all) <;> linarith)

/-- Witness for C9 (amended): with the default configuration a fresh
resolver is IDLE at `now = 100`. -/
theorem init_idle_witness : resolve defaultConfig initTimestamps 100 = State.IDLE :=
  init_idle defaultConfig 100 (by norm_num [maxDuration, defaultConfig, max_le_iff])

/-- C5: `on_running`, `on_success`, `on_error` each stamp their dedicated
timestamp and the generic log-activity timestamp with the call's time,
leaving `last_fs_activity` and the other two classified timestamps
unchanged. -/
theorem classified_mutators (now : ℚ) (ts : StateTimestamps) :
    ((on_running now ts).last_running = now ∧
      (on_running now ts).last_log_activity = now ∧
      (on_running now ts).last_fs_activity = ts.last_fs_activity ∧
      (on_running now ts).last_success = ts.last_success ∧
      (on_running now ts).last_error = ts.last_error) ∧
    ((on_success now ts).last_success = now ∧
      (on_success now ts).last_log_activity = now ∧
      (on_success now ts).last_fs_activity = ts.last_fs_activity ∧
      (on_success now ts).last_running = ts.last_running ∧
      (on_success now ts).last_error = ts.last_error) ∧
    ((on_error now ts).last_error = now ∧
      (on_error now ts).last_log_activity = now ∧
      (on_error now ts).last_fs_activity = ts.last_fs_activity ∧
      (on_error now ts).last_running = ts.last_running ∧
      (on_error now ts).last_success = ts.last_success) :=
  ⟨⟨rfl, rfl, rfl, rfl, rfl⟩, ⟨rfl, rfl, rfl, rfl, rfl⟩, ⟨rfl, rfl, rfl, rfl, rfl⟩⟩

/-- C3: classification of a chunk is ordered and exclusive: an ERROR match
invokes exactly `on_error` and stops (leaving `last_success` untouched);
otherwise a SUCCESS match invokes only `on_success`; otherwise a RUNNING
match invokes only `on_running`; otherwise the generic `on_log_activity`
is invoked. -/
theorem analyze_ordered (now : ℚ) (content : List Char) (ts : StateTimestamps) :
    (matchesAny ERROR_PATTERNS content = true →
      analyze now content ts = on_error now ts ∧
      (analyze now content ts).last_success = ts.last_success) ∧
    (matchesAny ERROR_PATTERNS content = false →
      matchesAny SUCCESS_PATTERNS content = true →
      analyze now content ts = on_success now ts) ∧
    (matchesAny ERROR_PATTERNS content = false →
      matchesAny SUCCESS_PATTERNS content = false →
      matchesAny RUNNING_PATTERNS content = true →
      analyze now content ts = on_running now ts) ∧
    (matchesAny ERROR_PATTERNS content = false →
      matchesAny SUCCESS_PATTERNS content = false →
      matchesAny RUNNING_PATTERNS content = false →
      analyze now content ts = on_log_activity now ts) := by
  refine ⟨fun h1 => ⟨?_, ?_⟩, fun h1 h2 => ?_, fun h1 h2 h3 => ?_, fun h1 h2 h3 => ?_⟩
  · simp [analyze, h1]
  · simp [analyze, h1, on_error, on_log_activity]
  · simp [analyze, h1, h2]
  · simp [analyze, h1, h2, h3]
  · simp [analyze, h1, h2, h3]

/-- Witness for C3 at a concrete chunk containing both an ERROR substring
and a SUCCESS substring: only the ERROR branch fires and `last_success` is
untouched. -/
theorem analyze_ordered_witness :
    analyze 1 (String.toList "Error: 2 tests passed") initTimestamps =
      on_error 1 initTimestamps ∧
    (analyze 1 (String.toList "Error: 2 tests passed") initTimestamps).last_success =
      initTimestamps.last_success :=
  (analyze_ordered 1 (String.toList "Error: 2 tests passed") initTimestamps).1
    (by decide)

/-- C4: if the file's size is smaller than the stored cursor, the cursor is
logically reset to 0, the entire current content is read and classified as
one chunk, and after the call the cursor equals the new (possibly regrown)
file size. -/
theorem rotation (now : ℚ) (content : List Char) (st : TailerState)
    (h : content.length < st.position) :
    (check now (some content) false st).position = content.length ∧
    (0 < content.length →
      (check now (some content) false st).ts = analyze now content st.ts) := by
  simp only [check, if_pos h]
  split_ifs with h2 hrf
  · exact absurd hrf (by simp)
  · constructor
    · rfl
    · intro _
      show analyze now (List.drop 0 content) st.ts = analyze now content st.ts
      rw [List.drop_zero]
  · constructor
    · show 0 = content.length
      omega
    · exact fun hc => absurd hc h2

/-- Witness for C4, Scenario 4 of the spec: cursor at 500, file truncated
and regrown to 80 bytes; the whole 80-byte content is classified and the
cursor ends at 80. -/
theorem rotation_witness :
    (check 0 (some (List.replicate 80 'a')) false ⟨500, initTimestamps⟩).position = 80 ∧
    (check 0 (some (List.replicate 80 'a')) false ⟨500, initTimestamps⟩).ts =
      analyze 0 (List.replicate 80 'a') initTimestamps := by
  have h := rotation 0 (List.replicate 80 'a') ⟨500, initTimestamps⟩ (by simp)
  exact ⟨by simpa using h.1, h.2 (by simp)⟩

/-- C6, counterexample: an I/O failure does not always leave the cursor
unchanged: with cursor 500 and the file truncated-and-regrown to 80 bytes,
a failing read still leaves the cursor reset to 0, because the truncation
reset happens before the `open`/`read` block that the `except` swallows. -/
theorem check_cursor_changed :
    (check 0 (some (List.replicate 80 'a')) true ⟨500, initTimestamps⟩).position = 0 ∧
    (0 : ℕ) ≠ 500 := by
  constructor
  · simp [check]
  · decide

/-- C6 as amended: `check` never propagates an error: a missing file is a
no-op, and an I/O failure during the read is swallowed with the ledger
untouched and the cursor unchanged — except that a truncation-triggered
reset to 0 performed earlier in the same poll persists. -/
theorem check_swallows (now : ℚ) (content : List Char) (rf : Bool)
    (st : TailerState) :
    check now none rf st = st ∧
    (check now (some content) true st).ts = st.ts ∧
    (check now (some content) true st).position =
      (if content.length < st.position then 0 else st.position) := by
  refine ⟨rfl, ?_, ?_⟩ <;>
    · simp only [check]
      split_ifs <;> rfl

/-- C7: the caller-supplied exclusion names replace the defaults instead of
extending them: with extras `{".cache"}` the effective set no longer
contains `".git"`, so an event under a `.git` component is emitted, while
the defaults alone would have suppressed it.  This contradicts the stated
behaviour (and the CLI help text "additional directories to exclude"). -/
theorem excludes_replaced :
    effectiveExcludes (some [".cache"]) = [".cache"] ∧
    onAnyEvent (effectiveExcludes (some [".cache"]))
      ⟨["proj", ".git", "config"], false⟩ = true ∧
    onAnyEvent DEFAULT_EXCLUDES ⟨["proj", ".git", "config"], false⟩ = false := by
  refine ⟨rfl, ?_, ?_⟩ <;> decide

/-- C8, counterexample: constructing the engine with a non-positive
duration does not fail: `StateResolver.__init__` performs no validation,
so a config with `error_duration = -1` is accepted and stored verbatim. -/
theorem invalid_config_accepted :
    badConfig.error_duration ≤ 0 ∧
    mkStateResolver (some badConfig) =
      { config := badConfig, timestamps := initTimestamps } := by
  exact ⟨by norm_num [badConfig, defaultConfig], rfl⟩

/-- C8 as amended: construction never validates the durations — any
configuration, including one with non-positive durations, is accepted and
stored as given (the defaults when none is supplied) — and no mutator ever
changes the stored configuration, so the durations remain constant for the
life of the process. -/
theorem construction_unvalidated (cfg : StateConfig) (now : ℚ) (r : StateResolver) :
    (mkStateResolver (some cfg)).config = cfg ∧
    (mkStateResolver none).config = defaultConfig ∧
    (r.fsActivity now).config = r.config ∧
    (r.logActivity now).config = r.config ∧
    (r.runningEvent now).config = r.config ∧
    (r.successEvent now).config = r.config ∧
    (r.errorEvent now).config = r.config :=
  ⟨rfl, rfl, rfl, rfl, rfl, rfl, rfl⟩

/-- C10: a filesystem event emits the coalesced activity signal iff its
directory flag is false and no path component exactly equals an excluded
name; matching is on whole components: a path with component
`node_modules` is dropped under the defaults, while one with component
`node_modules_extra` is not. -/
theorem fs_event_filter (excludes : List String) (e : FSEvent) :
    (onAnyEvent excludes e = true ↔
      e.is_directory = false ∧ ∀ p ∈ e.src_parts, p ∉ excludes) ∧
    onAnyEvent DEFAULT_EXCLUDES ⟨["src", "node_modules", "app.js"], false⟩ = false ∧
    onAnyEvent DEFAULT_EXCLUDES ⟨["src", "node_modules_extra", "app.js"], false⟩ =
      true := by
  refine ⟨?_, by decide, by decide⟩
  obtain ⟨parts, dir⟩ := e
  cases dir <;>
    simp [onAnyEvent, shouldIgnore, List.any_eq_true]

/-- Witness for C10 at a concrete input: under the default exclusion set,
an event whose path contains the component `node_modules` is suppressed. -/
theorem fs_event_filter_witness :
    onAnyEvent DEFAULT_EXCLUDES ⟨["src", "node_modules", "app.js"], false⟩ = false :=
  (fs_event_filter DEFAULT_EXCLUDES
    ⟨["src", "node_modules", "app.js"], false⟩).2.1

end AvatarOverlay
